import Mathlib

/-!
Verification of the duckduckgo-answers command-line client (src/main.go).

Go strings are byte sequences, so we model them as `List Nat` with every
element below 256.  Pure functions of the program (`getAPIURL`,
`responseToString`'s scanning, `unmarshalResponse`, `printResponse`,
`searchPrompt`'s line handling) are embedded as Lean functions over this
representation; the process-terminating `panic` calls are modelled by
`Option`/sum results, and the HTTP transport by an explicit response-body
value handed to the pipeline.
-/

set_option maxRecDepth 100000

namespace DDG

/-- Bytes of an ASCII Lean string literal (UTF-8 bytes of the text).
Used only to write the program's literal strings readably. -/
def strBytes (s : String) : List Nat := s.data.map Char.toNat

example : strBytes "ab" = [97, 98] := by decide

/-! ## Request Builder (src/main.go: `Options`, `getAPIURL`) -/

/-- `Options` of src/main.go: all possible API arguments of the query URL.
Go `string` is a byte list, Go `int` is `Int`. -/
structure Options where
  Format : List Nat
  Pretty : Int
  NoRedirect : Int
  NoHTML : Int
  SkipDisambig : Int

/-- Upper-case hexadecimal digit byte, as Go's `upperhex` table
"0123456789ABCDEF" used by `net/url`'s escaping. -/
def hexUpper (n : Nat) : Nat := if n < 10 then 48 + n else 55 + n

/-- `net/url`'s `shouldEscape(c, encodeQueryComponent)`: every byte except
the ASCII alphanumerics and `-`, `.`, `_`, `~` is escaped in a query
component. -/
def shouldEscapeQuery (c : Nat) : Bool :=
  decide (¬ ((48 ≤ c ∧ c ≤ 57) ∨ (65 ≤ c ∧ c ≤ 90) ∨ (97 ≤ c ∧ c ≤ 122) ∨
             c = 45 ∨ c = 46 ∨ c = 95 ∨ c = 126))

/-- One byte's image under `url.QueryEscape`: a space becomes `+` (43),
other escaped bytes become `%XX` with upper-case hex, the rest stay. -/
def escapeByte (c : Nat) : List Nat :=
  if c = 32 then [43]
  else if shouldEscapeQuery c then [37, hexUpper (c / 16), hexUpper (c % 16)]
  else [c]

/-- `url.QueryEscape` from `net/url`, as called by `getAPIURL`
(src/main.go line 78): escapes each byte of the query string. -/
def queryEscape (s : List Nat) : List Nat := s.flatMap escapeByte

/-- Decimal digits of a natural number (auxiliary, fuel-driven). -/
def natDecAux : Nat → Nat → List Nat
  | 0, _ => []
  | fuel + 1, n => if n = 0 then [] else natDecAux fuel (n / 10) ++ [48 + n % 10]

/-- Decimal byte string of a natural number. -/
def natDec (n : Nat) : List Nat := if n = 0 then [48] else natDecAux n n

/-- `fmt.Sprintf` `%d` rendering of a Go `int`. -/
def intDec (i : Int) : List Nat :=
  if i < 0 then 45 :: natDec i.natAbs else natDec i.toNat

/-- `getAPIURL` (src/main.go lines 76-81): percent-encodes the query and
interpolates it and the options into the fixed URL template via
`fmt.Sprintf`. -/
def getAPIURL (queryString : List Nat) (options : Options) : List Nat :=
  strBytes "https://api.duckduckgo.com/?q=" ++ queryEscape queryString ++
  strBytes "&format=" ++ options.Format ++
  strBytes "&pretty=" ++ intDec options.Pretty ++
  strBytes "&no_redirect=" ++ intDec options.NoRedirect ++
  strBytes "&no_html=" ++ intDec options.NoHTML ++
  strBytes "&skip_disambig=" ++ intDec options.SkipDisambig ++
  strBytes "&t=duckduckgo-answers"

/-! ## Standard query-component percent-decoding

`queryUnescape` is the standard decoding of a URL query component
(Go's `url.QueryUnescape`): `+` decodes to a space, `%XX` to the byte
with hex value `XX`, a malformed `%` sequence is an error.  It is the
decoding side of the round-trip stated by the spec, not repository
code. -/

/-- Value of one hexadecimal digit byte (accepting both cases). -/
def hexVal (c : Nat) : Option Nat :=
  if 48 ≤ c ∧ c ≤ 57 then some (c - 48)
  else if 65 ≤ c ∧ c ≤ 70 then some (c - 65 + 10)
  else if 97 ≤ c ∧ c ≤ 102 then some (c - 97 + 10)
  else none

/-- Standard percent-decoding of a URL query component. -/
def queryUnescape : List Nat → Option (List Nat)
  | [] => some []
  | 37 :: h :: l :: rest =>
    match hexVal h, hexVal l with
    | some hv, some lv => (queryUnescape rest).map (fun t => (hv * 16 + lv) :: t)
    | _, _ => none
  | 37 :: _ => none
  | 43 :: rest => (queryUnescape rest).map (fun t => 32 :: t)
  | c :: rest => (queryUnescape rest).map (fun t => c :: t)

example : queryEscape (strBytes "a b/c?") = strBytes "a+b%2Fc%3F" := by decide
example : queryUnescape (strBytes "a+b%2Fc%3F") = some (strBytes "a b/c?") := by decide
example : queryEscape [195, 188] = strBytes "%C3%BC" := by decide
example : getAPIURL (strBytes "a b") ⟨strBytes "json", 1, 1, 1, 1⟩ =
    strBytes "https://api.duckduckgo.com/?q=a+b&format=json&pretty=1&no_redirect=1&no_html=1&skip_disambig=1&t=duckduckgo-answers" := by
  decide

/-! ### Round-trip lemmas -/

theorem hexVal_hexUpper (n : Nat) (h : n < 16) : hexVal (hexUpper n) = some n := by
  unfold hexVal hexUpper
  by_cases h10 : n < 10
  · simp only [if_pos h10]
    rw [if_pos (by omega)]
    simp only [Option.some.injEq]
    omega
  · simp only [if_neg h10]
    rw [if_neg (by omega), if_pos (by omega)]
    simp only [Option.some.injEq]
    omega

theorem queryUnescape_escapeByte (c : Nat) (hc : c < 256) (rest : List Nat) :
    queryUnescape (escapeByte c ++ rest) = (queryUnescape rest).map (fun t => c :: t) := by
  unfold escapeByte
  by_cases h32 : c = 32
  · subst h32
    simp [queryUnescape]
  · rw [if_neg h32]
    by_cases hesc : shouldEscapeQuery c
    · rw [if_pos hesc]
      simp only [List.cons_append, List.nil_append, queryUnescape]
      rw [hexVal_hexUpper (c / 16) (by omega), hexVal_hexUpper (c % 16) (by omega)]
      have hdm : c / 16 * 16 + c % 16 = c := by omega
      simp [hdm]
    · rw [if_neg hesc]
      simp only [shouldEscapeQuery, decide_eq_true_eq, Decidable.not_not] at hesc
      have h37 : c ≠ 37 := by omega
      have h43 : c ≠ 43 := by omega
      simp [queryUnescape, h37, h43]

/-- Encode-then-decode round-trip at the byte level: standard
query-component percent-decoding inverts `url.QueryEscape`. -/
theorem queryUnescape_queryEscape (q : List Nat) (h : ∀ b ∈ q, b < 256) :
    queryUnescape (queryEscape q) = some q := by
  induction q with
  | nil => rfl
  | cons c rest ih =>
    have hc : c < 256 := h c (List.mem_cons_self c rest)
    have hrest : ∀ b ∈ rest, b < 256 := fun b hb => h b (List.mem_cons_of_mem c hb)
    show queryUnescape (escapeByte c ++ queryEscape rest) = some (c :: rest)
    rw [queryUnescape_escapeByte c hc, ih hrest]
    rfl

/-! ### Extraction of the `q` component from the produced URL -/

/-- The `q` component of a URL of the produced shape: the bytes between
the first `?` (after the mandatory `q=` key) and the following `&`. -/
def queryComponentQ (u : List Nat) : List Nat :=
  let afterQuestion := (u.dropWhile (fun c => c != 63)).drop 1
  if afterQuestion.take 2 = [113, 61] then
    (afterQuestion.drop 2).takeWhile (fun c => c != 38)
  else []

theorem escapeByte_ne_38 (c x : Nat) (hx : x ∈ escapeByte c) : x ≠ 38 := by
  unfold escapeByte at hx
  by_cases h32 : c = 32
  · rw [if_pos h32] at hx
    simp at hx
    omega
  · rw [if_neg h32] at hx
    by_cases hesc : shouldEscapeQuery c
    · rw [if_pos hesc] at hx
      unfold hexUpper at hx
      simp at hx
      rcases hx with h | h | h <;> (first | omega | (split at h <;> omega))
    · rw [if_neg hesc] at hx
      simp only [shouldEscapeQuery, decide_eq_true_eq, Decidable.not_not] at hesc
      simp at hx
      omega

theorem takeWhile_ne38_append (e r : List Nat) (he : ∀ x ∈ e, x ≠ 38) :
    (e ++ 38 :: r).takeWhile (fun c => c != 38) = e := by
  induction e with
  | nil => simp [List.takeWhile]
  | cons a t ih =>
    have ha : a ≠ 38 := he a (List.mem_cons_self a t)
    have ht : ∀ x ∈ t, x ≠ 38 := fun x hx => he x (List.mem_cons_of_mem a hx)
    simp only [List.cons_append, List.takeWhile_cons]
    rw [if_pos (by simpa using ha), ih ht]

theorem queryComponentQ_prefixed (e tail : List Nat) (he : ∀ x ∈ e, x ≠ 38) :
    queryComponentQ ([104, 116, 116, 112, 115, 58, 47, 47, 97, 112, 105, 46, 100,
      117, 99, 107, 100, 117, 99, 107, 103, 111, 46, 99, 111, 109, 47, 63, 113, 61] ++
      (e ++ 38 :: tail)) = e := by
  unfold queryComponentQ
  simp only [List.cons_append, List.dropWhile_cons]
  norm_num
  exact takeWhile_ne38_append e tail he

theorem queryComponentQ_getAPIURL (q : List Nat) (o : Options) :
    queryComponentQ (getAPIURL q o) = queryEscape q := by
  have hesc38 : ∀ x ∈ queryEscape q, x ≠ 38 := by
    intro x hx
    rcases List.exists_of_mem_flatMap hx with ⟨c, _, hxc⟩
    exact escapeByte_ne_38 c x hxc
  have hshape : getAPIURL q o =
      [104, 116, 116, 112, 115, 58, 47, 47, 97, 112, 105, 46, 100, 117, 99, 107,
       100, 117, 99, 107, 103, 111, 46, 99, 111, 109, 47, 63, 113, 61] ++
      (queryEscape q ++ 38 :: (strBytes "format=" ++ o.Format ++
        strBytes "&pretty=" ++ intDec o.Pretty ++
        strBytes "&no_redirect=" ++ intDec o.NoRedirect ++
        strBytes "&no_html=" ++ intDec o.NoHTML ++
        strBytes "&skip_disambig=" ++ intDec o.SkipDisambig ++
        strBytes "&t=duckduckgo-answers")) := by
    have hpre : strBytes "https://api.duckduckgo.com/?q=" =
        [104, 116, 116, 112, 115, 58, 47, 47, 97, 112, 105, 46, 100, 117, 99, 107,
         100, 117, 99, 107, 103, 111, 46, 99, 111, 109, 47, 63, 113, 61] := by decide
    have hfmt : strBytes "&format=" = 38 :: strBytes "format=" := by decide
    simp [getAPIURL, hpre, hfmt, List.append_assoc]
  rw [hshape, queryComponentQ_prefixed _ _ hesc38]

/-- The query options value built at the start of `main`
(src/main.go lines 160-166). -/
def mainOptions : Options := ⟨strBytes "json", 1, 1, 1, 1⟩

/-- C1: for every query byte string (covering spaces, punctuation and
UTF-8-encoded Unicode), the `q` component of the URL returned by
`getAPIURL`, percent-decoded per standard URL query-component rules,
recovers the original query exactly. -/
theorem getAPIURL_q_component_roundtrip (q : List Nat) (o : Options)
    (h : ∀ b ∈ q, b < 256) :
    queryUnescape (queryComponentQ (getAPIURL q o)) = some q := by
  rw [queryComponentQ_getAPIURL]
  exact queryUnescape_queryEscape q h

/-- Witness for C1 at the concrete query "a b.,ü?" (bytes, with ü in
UTF-8) and the options used by `main`. -/
theorem getAPIURL_q_component_roundtrip_witness :
    queryUnescape (queryComponentQ (getAPIURL [97, 32, 98, 46, 44, 195, 188, 63] mainOptions)) =
      some [97, 32, 98, 46, 44, 195, 188, 63] :=
  getAPIURL_q_component_roundtrip [97, 32, 98, 46, 44, 195, 188, 63] mainOptions (by decide)

/-- The rendering of a boolean-like option flag in the URL: the digit
`0` or `1`. -/
def flagDigit (i : Int) : List Nat := if i = 0 then [48] else [49]

/-- C9: for every query string and every `Options` value (whose four
flags are boolean-like, i.e. `0` or `1`, as the spec's QueryOptions data
model states), `getAPIURL` returns exactly the fixed template
`https://api.duckduckgo.com/?q=<encoded>&format=<fmt>&pretty=<0|1>&no_redirect=<0|1>&no_html=<0|1>&skip_disambig=<0|1>&t=duckduckgo-answers`,
with the constant client identifier `duckduckgo-answers`.  Being a Lean
function of `(queryString, options)` with no other arguments, it is in
particular pure and deterministic: identical inputs yield the identical
URL string. -/
theorem getAPIURL_template (q : List Nat) (o : Options)
    (hp : o.Pretty = 0 ∨ o.Pretty = 1) (hr : o.NoRedirect = 0 ∨ o.NoRedirect = 1)
    (hh : o.NoHTML = 0 ∨ o.NoHTML = 1) (hs : o.SkipDisambig = 0 ∨ o.SkipDisambig = 1) :
    getAPIURL q o =
      strBytes "https://api.duckduckgo.com/?q=" ++ queryEscape q ++
      strBytes "&format=" ++ o.Format ++
      strBytes "&pretty=" ++ flagDigit o.Pretty ++
      strBytes "&no_redirect=" ++ flagDigit o.NoRedirect ++
      strBytes "&no_html=" ++ flagDigit o.NoHTML ++
      strBytes "&skip_disambig=" ++ flagDigit o.SkipDisambig ++
      strBytes "&t=duckduckgo-answers" := by
  have flagEq : ∀ i : Int, i = 0 ∨ i = 1 → intDec i = flagDigit i := by
    rintro i (rfl | rfl) <;> decide
  unfold getAPIURL
  rw [flagEq _ hp, flagEq _ hr, flagEq _ hh, flagEq _ hs]

/-- Witness for C9 at the concrete query "go" and the options `main`
builds. -/
theorem getAPIURL_template_witness :
    getAPIURL (strBytes "go") mainOptions =
      strBytes "https://api.duckduckgo.com/?q=" ++ queryEscape (strBytes "go") ++
      strBytes "&format=" ++ mainOptions.Format ++
      strBytes "&pretty=" ++ flagDigit mainOptions.Pretty ++
      strBytes "&no_redirect=" ++ flagDigit mainOptions.NoRedirect ++
      strBytes "&no_html=" ++ flagDigit mainOptions.NoHTML ++
      strBytes "&skip_disambig=" ++ flagDigit mainOptions.SkipDisambig ++
      strBytes "&t=duckduckgo-answers" :=
  getAPIURL_template (strBytes "go") mainOptions (Or.inr rfl) (Or.inr rfl)
    (Or.inr rfl) (Or.inr rfl)

/-! ## UTF-8 decoding and `strings.TrimSpace`

`searchPrompt` (src/main.go line 68) tests `strings.TrimSpace(query) == ""`.
`TrimSpace` trims the runes satisfying `unicode.IsSpace` from both ends,
decoding the byte string as UTF-8 (`utf8.DecodeRune` / `DecodeLastRune`,
with invalid sequences yielding the error rune 0xFFFD, which is not a
space). -/

/-- Class of a UTF-8 first byte, as Go `unicode/utf8`'s `first` and
`acceptRanges` tables: the accepted range of the second byte and the
sequence size. -/
def firstByteClass (s0 : Nat) : Option (Nat × Nat × Nat) :=
  if 0xC2 ≤ s0 ∧ s0 ≤ 0xDF then some (0x80, 0xBF, 2)
  else if s0 = 0xE0 then some (0xA0, 0xBF, 3)
  else if 0xE1 ≤ s0 ∧ s0 ≤ 0xEC then some (0x80, 0xBF, 3)
  else if s0 = 0xED then some (0x80, 0x9F, 3)
  else if 0xEE ≤ s0 ∧ s0 ≤ 0xEF then some (0x80, 0xBF, 3)
  else if s0 = 0xF0 then some (0x90, 0xBF, 4)
  else if 0xF1 ≤ s0 ∧ s0 ≤ 0xF3 then some (0x80, 0xBF, 4)
  else if s0 = 0xF4 then some (0x80, 0x8F, 4)
  else none

/-- Go `utf8.DecodeRune`: the first rune of the byte string and the
number of bytes it occupies; `(0xFFFD, 1)` for an invalid encoding,
`(0xFFFD, 0)` for the empty string.  The bit-masking `s0 & 0x1F` etc. of
the Go source is written `s0 % 0x20`, equal on the accepted ranges. -/
def decodeRune : List Nat → Nat × Nat
  | [] => (0xFFFD, 0)
  | s0 :: rest =>
    if s0 < 0x80 then (s0, 1)
    else
      match firstByteClass s0 with
      | none => (0xFFFD, 1)
      | some (lo, hi, sz) =>
        match rest with
        | [] => (0xFFFD, 1)
        | b1 :: rest1 =>
          if b1 < lo ∨ hi < b1 then (0xFFFD, 1)
          else if sz = 2 then (s0 % 0x20 * 0x40 + b1 % 0x40, 2)
          else
            match rest1 with
            | [] => (0xFFFD, 1)
            | b2 :: rest2 =>
              if b2 < 0x80 ∨ 0xBF < b2 then (0xFFFD, 1)
              else if sz = 3 then (s0 % 0x10 * 0x1000 + b1 % 0x40 * 0x40 + b2 % 0x40, 3)
              else
                match rest2 with
                | [] => (0xFFFD, 1)
                | b3 :: _ =>
                  if b3 < 0x80 ∨ 0xBF < b3 then (0xFFFD, 1)
                  else (s0 % 8 * 0x40000 + b1 % 0x40 * 0x1000 + b2 % 0x40 * 0x40 + b3 % 0x40, 4)

/-- Go `utf8.RuneStart`: a byte that is not a continuation byte. -/
def runeStart (b : Nat) : Bool := decide (¬ (0x80 ≤ b ∧ b ≤ 0xBF))

/-- Go `utf8.DecodeLastRune`: the last rune of the byte string and its
size.  The backwards scan for a rune start inspects at most the last
four bytes. -/
def decodeLastRune (l : List Nat) : Nat × Nat :=
  let e := l.length
  if e = 0 then (0xFFFD, 0)
  else
    let last := l.getD (e - 1) 0
    if last < 0x80 then (last, 1)
    else
      let lim := e - 4
      let start :=
        if 2 ≤ e ∧ lim ≤ e - 2 ∧ runeStart (l.getD (e - 2) 0) then e - 2
        else if 3 ≤ e ∧ lim ≤ e - 3 ∧ runeStart (l.getD (e - 3) 0) then e - 3
        else if 4 ≤ e ∧ lim ≤ e - 4 ∧ runeStart (l.getD (e - 4) 0) then e - 4
        else if lim = 0 then 0 else lim - 1
      let rs := decodeRune (l.drop start)
      if start + rs.2 = e then rs else (0xFFFD, 1)

/-- Go `unicode.IsSpace`: `\t`, `\n`, `\v`, `\f`, `\r`, space, NEL, NBSP,
and the Unicode `White_Space` code points above Latin-1. -/
def isSpaceRune (r : Nat) : Bool :=
  decide (r = 9 ∨ r = 10 ∨ r = 11 ∨ r = 12 ∨ r = 13 ∨ r = 32 ∨ r = 0x85 ∨ r = 0xA0 ∨
          r = 0x1680 ∨ (0x2000 ≤ r ∧ r ≤ 0x200A) ∨ r = 0x2028 ∨ r = 0x2029 ∨
          r = 0x202F ∨ r = 0x205F ∨ r = 0x3000)

/-- Leading-space trimming (`strings.TrimLeftFunc` with `unicode.IsSpace`),
fuel-driven so it evaluates in the kernel; the fuel covers the length. -/
def trimLeftSpaceF : Nat → List Nat → List Nat
  | 0, l => l
  | _ + 1, [] => []
  | fuel + 1, b :: rest =>
    let rs := decodeRune (b :: rest)
    if isSpaceRune rs.1 then trimLeftSpaceF fuel (rest.drop (rs.2 - 1))
    else b :: rest

/-- Trailing-space trimming (`strings.TrimRightFunc` with
`unicode.IsSpace`), fuel-driven. -/
def trimRightSpaceF : Nat → List Nat → List Nat
  | 0, l => l
  | _ + 1, [] => []
  | fuel + 1, b :: rest =>
    let l := b :: rest
    let rs := decodeLastRune l
    if isSpaceRune rs.1 then trimRightSpaceF fuel (l.take (l.length - 1 - (rs.2 - 1)))
    else l

/-- Go `strings.TrimSpace`: leading and trailing white-space runes
removed. -/
def trimSpace (l : List Nat) : List Nat :=
  trimRightSpaceF l.length (trimLeftSpaceF l.length l)

example : trimSpace (strBytes "  hi \t ") = strBytes "hi" := by decide
example : trimSpace [32, 9, 13, 10] = [] := by decide
example : trimSpace [0xC2, 0xA0, 0x20] = [] := by decide
example : trimSpace [0xC2, 0xA0, 97, 0xC2, 0xA0] = [97] := by decide
example : trimSpace [0xE2, 0x80, 0x85, 97] = [97] := by decide
example : decodeRune [0xC2, 0xA0] = (0xA0, 2) := by decide
example : decodeLastRune [97, 0xC2, 0xA0] = (0xA0, 2) := by decide
example : trimSpace [0xFF, 32] = [0xFF] := by decide

/-! ## Input Source (`searchPrompt`, src/main.go lines 58-73) -/

/-- The two error returns of `searchPrompt`: the `bufio` read error
(standard input ends before a newline), and the `fmt.Errorf("Invalid
input")` for a line `strings.TrimSpace` sends to the empty string. -/
inductive PromptError
  | readError
  | invalidInput
deriving DecidableEq

/-- `searchPrompt` (src/main.go lines 58-73): reads one line of standard
input with `inputReader.ReadString('\n')` — the returned `query`
includes the terminating newline — fails with "Invalid input" when
`strings.TrimSpace(query) == ""`, and otherwise returns `query`
untrimmed.  The second component is the standard input left for the
next prompt; standard input is modelled as delivering bytes one line at
a time (terminal-style input), so the bytes after the first newline
remain for the next read. -/
def searchPrompt (stdin : List Nat) : Except PromptError (List Nat) × List Nat :=
  if (10 : Nat) ∈ stdin then
    let query := stdin.takeWhile (fun c => c != 10) ++ [10]
    let rest := (stdin.dropWhile (fun c => c != 10)).drop 1
    if trimSpace query = [] then (Except.error PromptError.invalidInput, rest)
    else (Except.ok query, rest)
  else (Except.error PromptError.readError, [])

example : searchPrompt (strBytes "hi there\x0a") =
    (Except.ok (strBytes "hi there\x0a"), []) := rfl
example : searchPrompt (strBytes " \x0anext") =
    (Except.error PromptError.invalidInput, strBytes "next") := rfl
example : searchPrompt (strBytes "no newline") =
    (Except.error PromptError.readError, []) := rfl

/-! ## Transport result and `responseToString` (src/main.go lines 93-108)

The HTTP response body stream is modelled by the bytes it delivers and a
flag saying whether the stream ends in a read error instead of a clean
EOF.  `bufio.Scanner` with the default `ScanLines` split returns the
data split at `'\n'`, each token stripped of one trailing `'\r'`; on a
read error the already-delivered data is still tokenized, the loop then
stops and `scanner.Err()` is non-nil. -/

/-- An HTTP response body: the bytes the stream delivers, and whether
delivering them ends in a read error (`true`) or clean EOF (`false`). -/
structure Body where
  data : List Nat
  readErr : Bool

/-- `bufio.dropCR`: drop one terminal `'\r'` from a token. -/
def dropCR (l : List Nat) : List Nat :=
  if l.getLast? = some 13 then l.dropLast else l

/-- The token sequence produced by `bufio.ScanLines` over a full byte
stream: split at `'\n'` (terminator consumed, one preceding `'\r'`
dropped), with a final non-terminated chunk forming a last token and an
empty final chunk producing none.  Fuel-driven on the length. -/
def scanLinesF : Nat → List Nat → List (List Nat)
  | 0, _ => []
  | _ + 1, [] => []
  | fuel + 1, d =>
    if (10 : Nat) ∈ d then
      dropCR (d.takeWhile (fun c => c != 10)) ::
        scanLinesF fuel ((d.dropWhile (fun c => c != 10)).drop 1)
    else [dropCR d]

/-- All tokens `scanner.Scan`/`scanner.Text` yields over a byte stream. -/
def scanLines (d : List Nat) : List (List Nat) := scanLinesF d.length d

/-- Concatenation of a list of byte strings (`strings.Join(l, "")`). -/
def listJoin (l : List (List Nat)) : List Nat := l.flatten

/-- `responseToString` (src/main.go lines 93-108): collects the
scanner's tokens (appended to the initial `make([]string, 1)` slice
holding one empty string), panics on `scanner.Err()` before
`response.Body.Close()`, otherwise closes the body and joins the
tokens.  Result: the joined string (`none` = panicked), and whether
`Body.Close()` was reached. -/
def responseToString (response : Body) : Option (List Nat) × Bool :=
  let stringResponse := ([] : List Nat) :: scanLines response.data
  if response.readErr then (none, false)
  else (some (listJoin stringResponse), true)

example : scanLines (strBytes "ab\x0acd") = [strBytes "ab", strBytes "cd"] := rfl
example : scanLines (strBytes "ab\x0d\x0acd\x0a") = [strBytes "ab", strBytes "cd"] := rfl
example : scanLines (strBytes "ab\x0d") = [strBytes "ab"] := rfl
example : responseToString ⟨strBytes "a\x0ab", false⟩ = (some (strBytes "ab"), true) := rfl
example : responseToString ⟨strBytes "a\x0ab", true⟩ = (none, false) := rfl

/-! ## Response Decoder (`unmarshalResponse`, src/main.go lines 110-120)

`encoding/json`'s `Unmarshal` into the `Response` schema: the input must
be one syntactically valid JSON value (with leading/trailing whitespace
allowed and nothing else), the top value must be an object or `null`,
the two abstract fields must be JSON strings (or `null`, which is
ignored), `RelatedTopics` must be an array (or `null`) of objects (or
`null`s) whose `FirstURL`/`Text` fields are strings; unknown fields are
ignored; field names match ASCII case-insensitively.  An error from
`json.Unmarshal` makes `unmarshalResponse` panic, modelled as `none`. -/

/-- `RelatedTopic` of src/main.go: one entry of `"RelatedTopics"`. -/
structure RelatedTopic where
  FirstURL : List Nat
  Text : List Nat
deriving DecidableEq

/-- `Response` of src/main.go: the decoded API payload, restricted to
the printed fields. -/
structure Response where
  AbstractText : List Nat
  AbstractURL : List Nat
  RelatedTopics : List RelatedTopic
deriving DecidableEq

/-- A parsed JSON value. -/
inductive JVal
  | jnull
  | jbool (b : Bool)
  | jnum
  | jstr (s : List Nat)
  | jarr (elems : List JVal)
  | jobj (fields : List (List Nat × JVal))

/-- JSON inter-token whitespace: space, tab, newline, carriage return. -/
def skipWS (l : List Nat) : List Nat :=
  l.dropWhile (fun c => c == 32 || c == 9 || c == 10 || c == 13)

/-- ASCII decimal digit test. -/
def digitB (c : Nat) : Bool := decide (48 ≤ c ∧ c ≤ 57)

/-- Integer part of a JSON number: `0`, or a nonzero digit followed by
digits. Returns the rest of the input. -/
def parseIntPart : List Nat → Option (List Nat)
  | [] => none
  | c :: r =>
    if c = 48 then some r
    else if 49 ≤ c ∧ c ≤ 57 then some (r.dropWhile digitB)
    else none

/-- Optional fraction part of a JSON number: `.` followed by one or more
digits. -/
def parseFracPart : List Nat → Option (List Nat)
  | 46 :: c :: r => if digitB c then some (r.dropWhile digitB) else none
  | [46] => none
  | l => some l

/-- Optional exponent part of a JSON number: `e`/`E`, optional sign, one
or more digits. -/
def parseExpPart : List Nat → Option (List Nat)
  | [] => some []
  | c :: rest =>
    if c = 101 ∨ c = 69 then
      let rest2 := match rest with
        | s :: r => if s = 43 ∨ s = 45 then r else s :: r
        | [] => ([] : List Nat)
      match rest2 with
      | [] => none
      | d :: r => if digitB d then some (r.dropWhile digitB) else none
    else some (c :: rest)

/-- A JSON number token (RFC 8259 grammar, as `encoding/json`'s scanner
checks it): optional minus, integer, fraction and exponent parts. -/
def parseNum (l : List Nat) : Option (List Nat) :=
  let l1 := match l with
    | 45 :: r => r
    | _ => l
  match parseIntPart l1 with
  | none => none
  | some l2 =>
    match parseFracPart l2 with
    | none => none
    | some l3 => parseExpPart l3

/-- Four hexadecimal digits of a `\uXXXX` escape. -/
def parseHex4 : List Nat → Option (Nat × List Nat)
  | a :: b :: c :: d :: r =>
    match hexVal a, hexVal b, hexVal c, hexVal d with
    | some x, some y, some z, some w => some (((x * 16 + y) * 16 + z) * 16 + w, r)
    | _, _, _, _ => none
  | _ => none

/-- Go `utf8.EncodeRune`: UTF-8 bytes of a rune, with surrogates and
out-of-range values replaced by U+FFFD. -/
def encodeRune (r : Nat) : List Nat :=
  if r < 0x80 then [r]
  else if r < 0x800 then [0xC0 + r / 0x40, 0x80 + r % 0x40]
  else if 0xD800 ≤ r ∧ r ≤ 0xDFFF then [0xEF, 0xBF, 0xBD]
  else if r < 0x10000 then [0xE0 + r / 0x1000, 0x80 + r / 0x40 % 0x40, 0x80 + r % 0x40]
  else if r ≤ 0x10FFFF then
    [0xF0 + r / 0x40000, 0x80 + r / 0x1000 % 0x40, 0x80 + r / 0x40 % 0x40, 0x80 + r % 0x40]
  else [0xEF, 0xBF, 0xBD]

/-- Body of a JSON string after its opening quote, per `encoding/json`:
no unescaped control bytes below 0x20, the eight single-character
escapes and `\uXXXX` (surrogate pairs combined, unpaired surrogates
replaced by U+FFFD), raw bytes re-encoded through UTF-8 decoding so
invalid sequences become U+FFFD.  Returns the decoded bytes and the
input after the closing quote. -/
def parseStringBody : Nat → List Nat → Option (List Nat × List Nat)
  | 0, _ => none
  | fuel + 1, l =>
    match l with
    | [] => none
    | c :: rest =>
      if c = 34 then some ([], rest)
      else if c = 92 then
        match rest with
        | [] => none
        | e :: r =>
          if e = 34 ∨ e = 92 ∨ e = 47 then
            (parseStringBody fuel r).map (fun p => (e :: p.1, p.2))
          else if e = 98 then (parseStringBody fuel r).map (fun p => (8 :: p.1, p.2))
          else if e = 102 then (parseStringBody fuel r).map (fun p => (12 :: p.1, p.2))
          else if e = 110 then (parseStringBody fuel r).map (fun p => (10 :: p.1, p.2))
          else if e = 114 then (parseStringBody fuel r).map (fun p => (13 :: p.1, p.2))
          else if e = 116 then (parseStringBody fuel r).map (fun p => (9 :: p.1, p.2))
          else if e = 117 then
            match parseHex4 r with
            | none => none
            | some (u, r2) =>
              if 0xD800 ≤ u ∧ u ≤ 0xDFFF then
                match r2 with
                | 92 :: 117 :: r3 =>
                  match parseHex4 r3 with
                  | some (u2, r4) =>
                    if 0xD800 ≤ u ∧ u ≤ 0xDBFF ∧ 0xDC00 ≤ u2 ∧ u2 ≤ 0xDFFF then
                      (parseStringBody fuel r4).map (fun p =>
                        (encodeRune (0x10000 + (u - 0xD800) * 0x400 + (u2 - 0xDC00)) ++ p.1, p.2))
                    else
                      (parseStringBody fuel r2).map (fun p => (encodeRune 0xFFFD ++ p.1, p.2))
                  | none =>
                    (parseStringBody fuel r2).map (fun p => (encodeRune 0xFFFD ++ p.1, p.2))
                | _ =>
                  (parseStringBody fuel r2).map (fun p => (encodeRune 0xFFFD ++ p.1, p.2))
              else (parseStringBody fuel r2).map (fun p => (encodeRune u ++ p.1, p.2))
          else none
      else if c < 0x20 then none
      else if c < 0x80 then (parseStringBody fuel rest).map (fun p => (c :: p.1, p.2))
      else
        let rs := decodeRune (c :: rest)
        (parseStringBody fuel (rest.drop (rs.2 - 1))).map (fun p => (encodeRune rs.1 ++ p.1, p.2))

mutual

/-- One JSON value (fuel-driven; `parseValue`, `parseArrayItems` and
`parseObjItems` mirror `encoding/json`'s scanner states for a value, an
array body and an object body). -/
def parseValue : Nat → List Nat → Option (JVal × List Nat)
  | 0, _ => none
  | fuel + 1, l =>
    match skipWS l with
    | [] => none
    | c :: rest =>
      if c = 110 then
        match rest with
        | 117 :: 108 :: 108 :: r => some (JVal.jnull, r)
        | _ => none
      else if c = 116 then
        match rest with
        | 114 :: 117 :: 101 :: r => some (JVal.jbool true, r)
        | _ => none
      else if c = 102 then
        match rest with
        | 97 :: 108 :: 115 :: 101 :: r => some (JVal.jbool false, r)
        | _ => none
      else if c = 34 then
        match parseStringBody (rest.length + 1) rest with
        | some (s, r) => some (JVal.jstr s, r)
        | none => none
      else if c = 91 then parseArrayItems fuel rest true []
      else if c = 123 then parseObjItems fuel rest true []
      else
        match parseNum (c :: rest) with
        | some r => some (JVal.jnum, r)
        | none => none

/-- Elements of a JSON array after `[` (or after a `,`). -/
def parseArrayItems : Nat → List Nat → Bool → List JVal → Option (JVal × List Nat)
  | 0, _, _, _ => none
  | fuel + 1, l, isFirst, acc =>
    match skipWS l with
    | [] => none
    | c :: rest =>
      if c = 93 ∧ isFirst then some (JVal.jarr [], rest)
      else
        match parseValue fuel (c :: rest) with
        | none => none
        | some (v, r) =>
          match skipWS r with
          | 44 :: r2 => parseArrayItems fuel r2 false (acc ++ [v])
          | 93 :: r2 => some (JVal.jarr (acc ++ [v]), r2)
          | _ => none

/-- Members of a JSON object after `{` (or after a `,`). -/
def parseObjItems : Nat → List Nat → Bool → List (List Nat × JVal) →
    Option (JVal × List Nat)
  | 0, _, _, _ => none
  | fuel + 1, l, isFirst, acc =>
    match skipWS l with
    | [] => none
    | c :: rest =>
      if c = 125 ∧ isFirst then some (JVal.jobj [], rest)
      else if c = 34 then
        match parseStringBody (rest.length + 1) rest with
        | none => none
        | some (k, r) =>
          match skipWS r with
          | 58 :: r2 =>
            match parseValue fuel r2 with
            | none => none
            | some (v, r3) =>
              match skipWS r3 with
              | 44 :: r4 => parseObjItems fuel r4 false (acc ++ [(k, v)])
              | 125 :: r4 => some (JVal.jobj (acc ++ [(k, v)]), r4)
              | _ => none
          | _ => none
      else none

end

/-- ASCII lower-casing of a byte. -/
def toLowerByte (c : Nat) : Nat := if 65 ≤ c ∧ c ≤ 90 then c + 32 else c

/-- `encoding/json`'s field-name matching: ASCII case-insensitive
equality. -/
def foldEq (a b : List Nat) : Bool :=
  a.map toLowerByte == b.map toLowerByte

/-- Store a JSON value into a `string` field: strings are taken,
`null` is ignored (the field keeps its value), anything else is an
`UnmarshalTypeError`. -/
def bindString (v : JVal) (cur : List Nat) : Option (List Nat) :=
  match v with
  | JVal.jstr s => some s
  | JVal.jnull => some cur
  | _ => none

/-- Store a JSON value into one `RelatedTopic`: an object (unknown
fields ignored) or `null` (zero value). -/
def bindTopic (v : JVal) : Option RelatedTopic :=
  match v with
  | JVal.jnull => some ⟨[], []⟩
  | JVal.jobj fields =>
    fields.foldlM (fun (cur : RelatedTopic) kv =>
      if foldEq kv.1 (strBytes "FirstURL") then
        (bindString kv.2 cur.FirstURL).map (fun s => { cur with FirstURL := s })
      else if foldEq kv.1 (strBytes "Text") then
        (bindString kv.2 cur.Text).map (fun s => { cur with Text := s })
      else some cur) ⟨[], []⟩
  | _ => none

/-- Store a JSON value into the `[]RelatedTopic` field: an array of
topics, or `null` (which sets the slice to nil). -/
def bindTopics (v : JVal) : Option (List RelatedTopic) :=
  match v with
  | JVal.jnull => some []
  | JVal.jarr elems => elems.mapM bindTopic
  | _ => none

/-- Store a parsed JSON document into `Response`: an object (fields
matched case-insensitively, unknown fields ignored, later duplicates
overriding) or `null` (zero value); anything else is a type error. -/
def bindResponse (v : JVal) : Option Response :=
  match v with
  | JVal.jnull => some ⟨[], [], []⟩
  | JVal.jobj fields =>
    fields.foldlM (fun (cur : Response) kv =>
      if foldEq kv.1 (strBytes "AbstractText") then
        (bindString kv.2 cur.AbstractText).map (fun s => { cur with AbstractText := s })
      else if foldEq kv.1 (strBytes "AbstractURL") then
        (bindString kv.2 cur.AbstractURL).map (fun s => { cur with AbstractURL := s })
      else if foldEq kv.1 (strBytes "RelatedTopics") then
        (bindTopics kv.2).map (fun ts => { cur with RelatedTopics := ts })
      else some cur) ⟨[], [], []⟩
  | _ => none

/-- `unmarshalResponse` (src/main.go lines 110-120): `json.Unmarshal` of
the input into a fresh `Response`; a decode error panics, modelled as
`none`. -/
def unmarshalResponse (jsonInput : List Nat) : Option Response :=
  match parseValue (2 * jsonInput.length + 2) jsonInput with
  | none => none
  | some (v, rest) => if skipWS rest = [] then bindResponse v else none

example : unmarshalResponse (strBytes "\x7b\x7d") = some ⟨[], [], []⟩ := rfl
example : unmarshalResponse (strBytes "null") = some ⟨[], [], []⟩ := rfl
example : unmarshalResponse (strBytes "not json") = none := rfl
example : unmarshalResponse (strBytes "[1]") = none := rfl
example : unmarshalResponse (strBytes "\x7b\"AbstractText\":5\x7d") = none := rfl
example : unmarshalResponse (strBytes "5 x") = none := rfl
example : unmarshalResponse (strBytes " \x7b \"AbstractText\" : \"Hello\" , \"AbstractURL\" : \"\" , \"RelatedTopics\" : [ ] \x7d ") =
    some ⟨strBytes "Hello", [], []⟩ := rfl
example : unmarshalResponse
    (strBytes "\x7b\"AbstractText\":\"X\",\"AbstractURL\":\"http://e\",\"RelatedTopics\":[\x7b\"FirstURL\":\"http://a\",\"Text\":\"A\"\x7d,\x7b\"FirstURL\":\"http://b\",\"Text\":\"B\"\x7d]\x7d") =
    some ⟨strBytes "X", strBytes "http://e",
          [⟨strBytes "http://a", strBytes "A"⟩, ⟨strBytes "http://b", strBytes "B"⟩]⟩ := rfl
example : unmarshalResponse (strBytes "\x7b\"Ignored\":\x7b\"nested\":[1,true,-2.5e3]\x7d,\"abstracttext\":\"y\"\x7d") =
    some ⟨strBytes "y", [], []⟩ := rfl
example : unmarshalResponse (strBytes "\x7b\"AbstractText\":\"a\\u0041\\n\\\"\"\x7d") =
    some ⟨strBytes "aA\x0a\"", [], []⟩ := rfl
example : unmarshalResponse (strBytes "\x7b\"RelatedTopics\":null\x7d") = some ⟨[], [], []⟩ := rfl
example : unmarshalResponse (strBytes "\x7b\"RelatedTopics\":\"x\"\x7d") = none := rfl
example : unmarshalResponse (strBytes "\x7b\"AbstractText\":\"x\"") = none := rfl

/-! ## Presenter (`TerminalColors`, `printResponse`, src/main.go lines 38-47
and 122-140) -/

/-- The `TerminalColors` map of src/main.go; a missing key yields Go's
zero string, here `[]`. -/
def TerminalColors (name : String) : List Nat :=
  if name = "Reset" then strBytes "\x1b[0m"
  else if name = "Red" then strBytes "\x1b[31m"
  else if name = "Green" then strBytes "\x1b[33m"
  else if name = "Blue" then strBytes "\x1b[34m"
  else if name = "White" then strBytes "\x1b[37m"
  else if name = "Yellow" then strBytes "\x1b[33m"
  else []

/-- Output of `fmt.Println(a, b)`: the operands separated by one space,
with a final newline. -/
def println2 (a b : List Nat) : List Nat := a ++ [32] ++ b ++ [10]

/-- `printResponse` (src/main.go lines 122-140): the exact bytes written
to standard output — the abstract text via
`fmt.Printf("\n %s \n \n", ...)`, the conditional "More info" section,
the "Related topics" header, the per-topic URL and description lines,
and the final color-reset code. -/
def printResponse (input : Response) : List Nat :=
  (strBytes "\x0a " ++ input.AbstractText ++ strBytes " \x0a \x0a") ++
  (if input.AbstractURL ≠ [] then
    println2 (TerminalColors "Green") (strBytes "More info:") ++
    println2 (TerminalColors "Blue") ([9] ++ input.AbstractURL ++ [10])
  else []) ++
  println2 (TerminalColors "Green") (strBytes "Related topics: ") ++
  (input.RelatedTopics.flatMap (fun t =>
    println2 (TerminalColors "Blue") ([9] ++ t.FirstURL) ++
    println2 (TerminalColors "White") ([9] ++ t.Text ++ [10]))) ++
  TerminalColors "Reset"

/-! ## Pipeline and Driver (`processAPIRequest`, `main`,
src/main.go lines 142-195)

The Transport (`queryAPI`, lines 83-91) performs `http.Get` on the built
URL; it is modelled by a function `net` from the URL to the response
`Body` the network delivers.  A transport-level failure panics inside
`queryAPI`; the claims under verification all concern runs where a
response body is delivered, so `net` is total here. -/

/-- `processAPIRequest` (src/main.go lines 142-157): build the URL,
fetch it, read the body to a string, unmarshal, print.  `none` means a
panic somewhere in the pipeline (read error or decode error); `some out`
is the rendered output of `printResponse`. -/
def processAPIRequest (query : List Nat) (options : Options)
    (net : List Nat → Body) : Option (List Nat) :=
  let queryURL := getAPIURL query options
  let apiResponse := net queryURL
  match (responseToString apiResponse).1 with
  | none => none
  | some stringAnswer =>
    match unmarshalResponse stringAnswer with
    | none => none
    | some parsedResponse => some (printResponse parsedResponse)

/-- Outcome of one iteration of `main`'s interactive loop
(src/main.go lines 183-193). -/
inductive StepOutcome
  /-- `searchPrompt` returned an error: `main` prints it and `continue`s;
  no URL is built and nothing is fetched.  Carries the standard input
  left for the next prompt. -/
  | promptError (err : PromptError) (remaining : List Nat)
  /-- A query was dispatched: `processAPIRequest` ran on the prompt's
  result.  Carries the fetched URL, the pipeline result (`none` =
  panic), and the remaining standard input. -/
  | ranQuery (url : List Nat) (result : Option (List Nat)) (remaining : List Nat)
deriving DecidableEq

/-- One iteration of `main`'s interactive loop: prompt, on error print
it and continue, otherwise run the pipeline on the returned query. -/
def interactiveStep (stdin : List Nat) (net : List Nat → Body) : StepOutcome :=
  match searchPrompt stdin with
  | (Except.error e, rest) => StepOutcome.promptError e rest
  | (Except.ok userInput, rest) =>
    StepOutcome.ranQuery (getAPIURL userInput mainOptions)
      (processAPIRequest userInput mainOptions net) rest

/-- Outcome of a run of `main` (src/main.go lines 159-195). -/
inductive MainOutcome
  /-- `-h` was set: `flag.PrintDefaults()` printed the usage text and the
  process exited through `os.Exit(-1)` before any query. -/
  | helpExit (code : Int)
  /-- `-s` was set: the pipeline ran exactly once, printed the carried
  rendered output, and the process exited through `os.Exit(1)`. -/
  | oneShotExit (code : Int) (rendered : List Nat)
  /-- `-s` was set but the single pipeline run panicked: the process
  crashed without reaching `os.Exit(1)` and rendered nothing. -/
  | oneShotPanic
  /-- no flag was set: the process entered the unbounded interactive
  loop. -/
  | interactiveMode
deriving DecidableEq

/-- `main` (src/main.go lines 159-195) up to the mode decision: help
flag → usage and `os.Exit(-1)`; non-empty `-s` query → one
`processAPIRequest` and `os.Exit(1)`; otherwise the interactive loop. -/
def mainRun (flagHelp : Bool) (flagSearch : List Nat)
    (net : List Nat → Body) : MainOutcome :=
  if flagHelp ≠ false then MainOutcome.helpExit (-1)
  else if flagSearch ≠ [] then
    match processAPIRequest flagSearch mainOptions net with
    | some rendered => MainOutcome.oneShotExit 1 rendered
    | none => MainOutcome.oneShotPanic
  else MainOutcome.interactiveMode

/-! ## Claims about the Input Source and interactive loop -/

theorem takeWhile_ne10 (line rest : List Nat) (h : (10 : Nat) ∉ line) :
    (line ++ 10 :: rest).takeWhile (fun c => c != 10) = line := by
  induction line with
  | nil => simp [List.takeWhile]
  | cons a t ih =>
    have ha : a ≠ 10 := fun e => h (e ▸ List.mem_cons_self a t)
    have ht : (10 : Nat) ∉ t := fun m => h (List.mem_cons_of_mem a m)
    simp only [List.cons_append, List.takeWhile_cons]
    rw [if_pos (by simpa using ha), ih ht]

theorem dropWhile_ne10 (line rest : List Nat) (h : (10 : Nat) ∉ line) :
    (line ++ 10 :: rest).dropWhile (fun c => c != 10) = 10 :: rest := by
  induction line with
  | nil => simp [List.dropWhile]
  | cons a t ih =>
    have ha : a ≠ 10 := fun e => h (e ▸ List.mem_cons_self a t)
    have ht : (10 : Nat) ∉ t := fun m => h (List.mem_cons_of_mem a m)
    simp only [List.cons_append, List.dropWhile_cons]
    rw [if_pos (by simpa using ha), ih ht]

theorem searchPrompt_split (line rest : List Nat) (h10 : (10 : Nat) ∉ line) :
    searchPrompt (line ++ 10 :: rest) =
      if trimSpace (line ++ [10]) = [] then (Except.error PromptError.invalidInput, rest)
      else (Except.ok (line ++ [10]), rest) := by
  unfold searchPrompt
  rw [if_pos (by simp)]
  rw [takeWhile_ne10 line rest h10, dropWhile_ne10 line rest h10]
  simp

/-- C2 counterexample: for the input line `"hi\n"`, `searchPrompt`
returns `"hi\n"` — the newline is NOT trimmed — and that newline-bearing
string, not `"hi"`, is the query handed to the request pipeline. -/
theorem searchPrompt_newline_counterexample :
    (searchPrompt (strBytes "hi\x0a")).1 = Except.ok (strBytes "hi\x0a") ∧
    strBytes "hi\x0a" ≠ strBytes "hi" ∧
    interactiveStep (strBytes "hi\x0a") (fun _ => ⟨strBytes "null", false⟩) =
      StepOutcome.ranQuery (getAPIURL (strBytes "hi\x0a") mainOptions)
        (some (printResponse ⟨[], [], []⟩)) [] :=
  ⟨rfl, by decide, rfl⟩

/-- C2 as amended: in interactive mode, the query obtained from one
prompt iteration and passed to the request pipeline is the line read
from standard input WITH its terminating newline still attached
(`searchPrompt` returns `query` untrimmed; `strings.TrimSpace` is used
only for the emptiness test). -/
theorem interactiveStep_query_includes_newline (line rest : List Nat)
    (net : List Nat → Body) (h10 : (10 : Nat) ∉ line)
    (hws : trimSpace (line ++ [10]) ≠ []) :
    interactiveStep (line ++ 10 :: rest) net =
      StepOutcome.ranQuery (getAPIURL (line ++ [10]) mainOptions)
        (processAPIRequest (line ++ [10]) mainOptions net) rest := by
  unfold interactiveStep
  rw [searchPrompt_split line rest h10, if_neg hws]

/-- Witness for the amended C2 at the line `"hi"`. -/
theorem interactiveStep_query_includes_newline_witness :
    interactiveStep (strBytes "hi" ++ 10 :: []) (fun _ => ⟨strBytes "null", false⟩) =
      StepOutcome.ranQuery (getAPIURL (strBytes "hi" ++ [10]) mainOptions)
        (processAPIRequest (strBytes "hi" ++ [10]) mainOptions
          (fun _ => ⟨strBytes "null", false⟩)) [] :=
  interactiveStep_query_includes_newline (strBytes "hi") []
    (fun _ => ⟨strBytes "null", false⟩) (by decide) (by decide)

/-- C4: for an interactive input line that is empty or consists only of
whitespace (`strings.TrimSpace` sends it to the empty string), the Input
Source returns the "Invalid input" error, the Driver invokes neither the
Request Builder nor the Transport for that iteration (the outcome
carries no URL and runs no pipeline), and the loop continues at the next
prompt with the remaining standard input. -/
theorem interactiveStep_whitespace_no_query (line rest : List Nat)
    (net : List Nat → Body) (h10 : (10 : Nat) ∉ line)
    (hws : trimSpace (line ++ [10]) = []) :
    interactiveStep (line ++ 10 :: rest) net =
      StepOutcome.promptError PromptError.invalidInput rest := by
  unfold interactiveStep
  rw [searchPrompt_split line rest h10, if_pos hws]

/-- Witness for C4 at the whitespace-only line `" \t"` followed by a
next line `"x"`. -/
theorem interactiveStep_whitespace_no_query_witness :
    interactiveStep ([32, 9] ++ 10 :: strBytes "x\x0a")
      (fun _ => ⟨strBytes "null", false⟩) =
      StepOutcome.promptError PromptError.invalidInput (strBytes "x\x0a") :=
  interactiveStep_whitespace_no_query [32, 9] (strBytes "x\x0a")
    (fun _ => ⟨strBytes "null", false⟩) (by decide) (by decide)

/-! ## Claims about `responseToString` and the decode pipeline -/

/-- C3 counterexample: for a response body whose stream fails while
being read (`scanner.Err() != nil`), `responseToString` panics at the
`panic(err)` on line 102 of src/main.go — BEFORE `response.Body.Close()`
on line 105 — so the body is not closed: release IS contingent on the
read succeeding. -/
theorem responseToString_close_counterexample :
    responseToString ⟨strBytes "x", true⟩ = (none, false) := rfl

/-- C3 as amended: `responseToString` closes the response body whenever
the scan completes without a read error (and then returns the joined
tokens); on a read error it panics before the `Close`, so the stream is
released only on the error-free path. -/
theorem responseToString_closes_on_success (b : Body) (h : b.readErr = false) :
    responseToString b = (some (listJoin (([] : List Nat) :: scanLines b.data)), true) := by
  unfold responseToString
  rw [h]
  simp

/-- Witness for the amended C3 at a concrete error-free body. -/
theorem responseToString_closes_on_success_witness :
    responseToString ⟨strBytes "a\x0ab", false⟩ =
      (some (listJoin (([] : List Nat) :: scanLines (strBytes "a\x0ab"))), true) :=
  responseToString_closes_on_success ⟨strBytes "a\x0ab", false⟩ rfl

/-- C5: for every delivered response body (no read error) whose scanned
string is not valid JSON for the `Response` schema (`json.Unmarshal`
errors, i.e. `unmarshalResponse` panics), the pipeline aborts with no
rendered output: `processAPIRequest` produces nothing and
`printResponse` is never invoked on the malformed payload. -/
theorem processAPIRequest_decode_failure_no_output (q : List Nat) (o : Options)
    (net : List Nat → Body)
    (hread : (net (getAPIURL q o)).readErr = false)
    (hbad : unmarshalResponse
      (listJoin (([] : List Nat) :: scanLines (net (getAPIURL q o)).data)) = none) :
    processAPIRequest q o net = none := by
  simp only [processAPIRequest]
  rw [responseToString_closes_on_success _ hread]
  simp [hbad]

/-- Witness for C5 at the malformed body `"not json"`. -/
theorem processAPIRequest_decode_failure_no_output_witness :
    processAPIRequest (strBytes "a") mainOptions
      (fun _ => ⟨strBytes "not json", false⟩) = none :=
  processAPIRequest_decode_failure_no_output (strBytes "a") mainOptions
    (fun _ => ⟨strBytes "not json", false⟩) rfl rfl

/-- C6 counterexample: with the search flag `-s x` set and a response
body that is not valid JSON, the single pipeline run panics inside
`unmarshalResponse`, so the process crashes WITHOUT reaching
`os.Exit(1)` and without rendering — the "exits with a distinguished
non-zero success-indicating status regardless of the response content"
part of the claim fails, as does "render" being executed. -/
theorem mainRun_oneshot_panic_counterexample :
    mainRun false (strBytes "x") (fun _ => ⟨strBytes "oops", false⟩) =
      MainOutcome.oneShotPanic := rfl

/-- C6 as amended: with a non-empty `-s` query whose response decodes
successfully, `main` runs the pipeline exactly once, prints its output
and exits through `os.Exit(1)` (a non-zero status distinct from the help
status); if the pipeline panics on the response content, the process
crashes without reaching that exit.  With `-h` set, `main` prints the
flag usage and exits with status `-1` before any query is attempted. -/
theorem mainRun_modes (search : List Nat) (net : List Nat → Body) (out : List Nat)
    (hs : search ≠ [])
    (hok : processAPIRequest search mainOptions net = some out) :
    mainRun false search net = MainOutcome.oneShotExit 1 out ∧
    mainRun true search net = MainOutcome.helpExit (-1) := by
  constructor
  · unfold mainRun
    simp [hs, hok]
  · rfl

/-- Witness for the amended C6: query `"a"`, response body `"{}"`. -/
theorem mainRun_modes_witness :
    mainRun false (strBytes "a") (fun _ => ⟨strBytes "\x7b\x7d", false⟩) =
      MainOutcome.oneShotExit 1 (printResponse ⟨[], [], []⟩) ∧
    mainRun true (strBytes "a") (fun _ => ⟨strBytes "\x7b\x7d", false⟩) =
      MainOutcome.helpExit (-1) :=
  mainRun_modes (strBytes "a") (fun _ => ⟨strBytes "\x7b\x7d", false⟩)
    (printResponse ⟨[], [], []⟩) (by decide) rfl

/-! ## C10: the scanner strips line terminators -/

theorem not_mem_dropCR {x : Nat} {l : List Nat} (h : x ∈ dropCR l) : x ∈ l := by
  unfold dropCR at h
  split at h
  · exact List.dropLast_subset l h
  · exact h

theorem not10_mem_scanLinesF (fuel : Nat) :
    ∀ d t, t ∈ scanLinesF fuel d → (10 : Nat) ∉ t := by
  induction fuel with
  | zero => intro d t ht; simp [scanLinesF] at ht
  | succ fuel ih =>
    intro d t ht
    match d with
    | [] => simp [scanLinesF] at ht
    | c :: d' =>
      have hstep : scanLinesF (fuel + 1) (c :: d') =
          if (10 : Nat) ∈ c :: d' then
            dropCR ((c :: d').takeWhile (fun x => x != 10)) ::
              scanLinesF fuel (((c :: d').dropWhile (fun x => x != 10)).drop 1)
          else [dropCR (c :: d')] := rfl
      rw [hstep] at ht
      split at ht
      · rcases List.mem_cons.mp ht with h | h
        · subst h
          intro hmem
          have := List.mem_takeWhile_imp (not_mem_dropCR hmem)
          simp at this
        · exact ih _ t h
      · rcases List.mem_cons.mp ht with h | h
        · subst h
          intro hmem
          rename_i hno
          exact hno (not_mem_dropCR hmem)
        · simp at h

theorem not10_mem_listJoin_scanLines (d : List Nat) :
    (10 : Nat) ∉ listJoin (scanLines d) := by
  intro h
  rcases List.mem_flatten.mp h with ⟨t, ht, hmem⟩
  exact not10_mem_scanLinesF d.length d t ht hmem

/-- C10: for every delivered response body, the string handed to the
JSON decoder is the concatenation of the body's scanner tokens — its
lines with the `'\n'` terminators (and a `'\r'` preceding them, or
terminal) removed — and that string can equal the raw body only when the
body contains no newline byte: the read step strips newlines rather than
preserving the body verbatim. -/
theorem responseToString_strips_newlines (d : List Nat) :
    (responseToString ⟨d, false⟩).1 = some (listJoin (scanLines d)) ∧
    (listJoin (scanLines d) = d → (10 : Nat) ∉ d) := by
  constructor
  · unfold responseToString listJoin
    simp
  · intro heq
    rw [← heq]
    exact not10_mem_listJoin_scanLines d

/-- Witness for C10 at the newline-free body `"abc"`. -/
theorem responseToString_strips_newlines_witness :
    (responseToString ⟨strBytes "abc", false⟩).1 =
      some (listJoin (scanLines (strBytes "abc"))) ∧
    (10 : Nat) ∉ strBytes "abc" :=
  ⟨(responseToString_strips_newlines (strBytes "abc")).1,
   (responseToString_strips_newlines (strBytes "abc")).2 (by decide)⟩

/-! ## Claims about the Presenter

The spec-level sections of the rendered output, named so the structural
claims about `printResponse` can be stated as exact decompositions. -/

/-- The abstract-text part: `fmt.Printf("\n %s \n \n", AbstractText)`. -/
def abstractPart (text : List Nat) : List Nat :=
  strBytes "\x0a " ++ text ++ strBytes " \x0a \x0a"

/-- The "Info" section: the green "More info:" line and the blue
abstract-URL line. -/
def infoSection (url : List Nat) : List Nat :=
  println2 (TerminalColors "Green") (strBytes "More info:") ++
  println2 (TerminalColors "Blue") ([9] ++ url ++ [10])

/-- The green "Related topics: " header line. -/
def relatedHeader : List Nat :=
  println2 (TerminalColors "Green") (strBytes "Related topics: ")

/-- The two lines printed for one related topic: its URL in blue, then
its description in white. -/
def topicLines (t : RelatedTopic) : List Nat :=
  println2 (TerminalColors "Blue") ([9] ++ t.FirstURL) ++
  println2 (TerminalColors "White") ([9] ++ t.Text ++ [10])

/-- C7: the Presenter's output decomposes with the Info section present
if and only if `AbstractURL` is non-empty: when `AbstractURL` is the
empty string the output is exactly the abstract part followed by the
Related-topics section — no Info section appears. -/
theorem printResponse_info_iff (r : Response) :
    printResponse r =
      abstractPart r.AbstractText ++
      (if r.AbstractURL = [] then [] else infoSection r.AbstractURL) ++
      relatedHeader ++ r.RelatedTopics.flatMap topicLines ++
      TerminalColors "Reset" := by
  unfold printResponse abstractPart infoSection relatedHeader topicLines
  by_cases h : r.AbstractURL = [] <;> simp [h]

/-- Everything `printResponse` emits before the Related-topics section:
the abstract part and the conditional Info section. -/
def preRelated (r : Response) : List Nat :=
  abstractPart r.AbstractText ++
  (if r.AbstractURL ≠ [] then infoSection r.AbstractURL else [])

/-- C8: the Presenter always prints the "Related topics" header, then
exactly the two lines of `topicLines` (one URL line, one description
line) for each `RelatedTopic` in payload order — an empty sequence
leaves just the header — and the terminal color-reset code comes after
the final line. -/
theorem printResponse_related_topics_structure (r : Response) :
    printResponse r =
      preRelated r ++ relatedHeader ++
      r.RelatedTopics.flatMap topicLines ++ TerminalColors "Reset" := by
  unfold printResponse preRelated abstractPart infoSection relatedHeader topicLines
  simp

end DDG
